import Mathlib

/-!
Verification of the FFI bridge in `src/rust/src/lib.rs` and
`src/rust/src/parser.rs` (a YAML/JSON conversion library exposed over a
C ABI).

Modelling conventions:
* A C string handed across the boundary is modelled as the `List Nat` of its
  content bytes (the bytes strictly before the terminating NUL, exactly what
  `CStr::from_ptr` exposes); each byte is `< 256` in every value the code
  actually builds, but the model does not need that bound.
* A nullable pointer argument or result is an `Option (List Nat)`; `none` is
  the null pointer.  A `some` result corresponds to exactly one fresh
  allocation handed to the caller (`CString::into_raw`), so "returns null and
  performs no allocation" is modelled as returning `none`.
* The two function-local `static mut LAST_ERROR` slots (one inside
  `get_last_error`, a distinct one inside `set_last_error`) are modelled as
  the two fields of `BridgeState`.
* The trusted third-party textual-data-model libraries (`serde_yaml`,
  `serde_json`) are external collaborators, out of scope per the spec; they
  are modelled as abstract function records `YamlLib` / `JsonLib` over a
  structured-value type `JsonValue` that is modelled from the spec's data
  model (tagged union with ordered string-keyed mappings).
-/

/-- Byte list of an ASCII string literal (every literal this development
passes in is ASCII, where code points and UTF-8 bytes coincide); used to
write the byte lists appearing in the source concisely. -/
def strBytes (s : String) : List Nat :=
  s.data.map Char.toNat

/-- Whether `b` is a UTF-8 continuation byte (0x80..0xBF). -/
def contOk (b : Nat) : Bool :=
  0x80 ≤ b && b ≤ 0xBF

/-- UTF-8 validity of a byte sequence, as checked by Rust's
`str::from_utf8` (RFC 3629: no overlong forms, no surrogates, max U+10FFFF).
This models the `CStr::to_str` encoding check performed at the boundary. -/
def utf8Valid : List Nat → Bool
  | [] => true
  | b0 :: tail =>
    if b0 ≤ 0x7F then utf8Valid tail
    else if b0 < 0xC2 then false
    else if b0 ≤ 0xDF then
      match tail with
      | b1 :: t1 => contOk b1 && utf8Valid t1
      | [] => false
    else if b0 ≤ 0xEF then
      match tail with
      | b1 :: b2 :: t2 =>
        (if b0 = 0xE0 then 0xA0 ≤ b1 && b1 ≤ 0xBF
         else if b0 = 0xED then 0x80 ≤ b1 && b1 ≤ 0x9F
         else contOk b1) && contOk b2 && utf8Valid t2
      | _ => false
    else if b0 ≤ 0xF4 then
      match tail with
      | b1 :: b2 :: b3 :: t3 =>
        (if b0 = 0xF0 then 0x90 ≤ b1 && b1 ≤ 0xBF
         else if b0 = 0xF4 then 0x80 ≤ b1 && b1 ≤ 0x8F
         else contOk b1) && contOk b2 && contOk b3 && utf8Valid t3
      | _ => false
    else false

/-- The byte-level effect of `e.to_string().replace('\"', "\\\"")` in
`lib.rs`: every double-quote byte (0x22) becomes backslash (0x5C) followed by
the quote.  (On valid UTF-8 text, byte 0x22 occurs exactly at the `"`
characters, so the char-level replace and this byte-level replace agree.) -/
def escapeQuotes : List Nat → List Nat
  | [] => []
  | b :: t => (if b = 34 then [92, 34] else [b]) ++ escapeQuotes t

/-- The error payload built by `format!("\x7b\x7b\"error\":\"\x7b\x7d\"\x7d\x7d", e...)` in
`yaml_parse` / `yaml_encode`. -/
def errorPayload (e : List Nat) : List Nat :=
  strBytes "\x7b\"error\":\"" ++ escapeQuotes e ++ strBytes "\"\x7d"

/-- The fixed payload returned when the input bytes are not valid UTF-8. -/
def invalidUtf8Payload : List Nat :=
  strBytes "\x7b\"error\":\"Invalid UTF-8 in input\"\x7d"

/-- Models `CString::new(s).unwrap_or_default()`: building the C string fails
exactly when `s` contains an interior NUL byte, in which case the default
(empty) C string is used instead. -/
def cStringNewOrDefault (s : List Nat) : List Nat :=
  if s.contains 0 then [] else s

/-- The structured-value intermediate representation. Modelled from the
spec: the tagged union of section 3 of the spec (the concrete type is
`serde_json::Value` from the external trusted library, not part of this
repository's sources).  Mappings are insertion-ordered lists of
(key, value) pairs, as the spec's data-model invariant requires; numbers are
carried as a decimal mantissa/exponent pair, standing in for the library's
native integer/floating representations (the bridge never inspects them). -/
inductive JsonValue where
  | null
  | bool (b : Bool)
  | num (mantissa : Int) (exponent : Int)
  | str (s : List Nat)
  | arr (elems : List JsonValue)
  | obj (fields : List (List Nat × JsonValue))

/-- The key list of a top-level mapping value (empty for non-mappings). -/
def topKeys : JsonValue → List (List Nat)
  | .obj fields => fields.map Prod.fst
  | _ => []

/-- Abstract interface of the external YAML library (`serde_yaml`): a
deserializer and the two serializer modes used by `parser.rs` (plain
`to_string`, and the canonical-formatter serializer of the flow-style
branch, whose `String::from_utf8` step is folded into the `Except`). -/
structure YamlLib where
  fromStr : List Nat → Except (List Nat) JsonValue
  toStrBlock : JsonValue → Except (List Nat) (List Nat)
  toStrCanonical : JsonValue → Except (List Nat) (List Nat)

/-- Abstract interface of the external JSON library (`serde_json`). -/
structure JsonLib where
  fromStr : List Nat → Except (List Nat) JsonValue
  toStr : JsonValue → Except (List Nat) (List Nat)

/-- `parser.rs parse_yaml_to_json`: parse YAML into a structured value with
the YAML library, then serialize that value as compact JSON text; either
library error propagates as the `Err` case. -/
def parse_yaml_to_json (Y : YamlLib) (J : JsonLib) (yaml_str : List Nat) :
    Except (List Nat) (List Nat) :=
  match Y.fromStr yaml_str with
  | .error e => .error e
  | .ok value => J.toStr value

/-- `parser.rs encode_json_to_yaml`: parse JSON into a structured value,
then serialize as YAML, block style or canonical flow style according to the
flag. -/
def encode_json_to_yaml (Y : YamlLib) (J : JsonLib) (json_str : List Nat)
    (block_style : Bool) : Except (List Nat) (List Nat) :=
  match J.fromStr json_str with
  | .error e => .error e
  | .ok value =>
    if block_style then Y.toStrBlock value else Y.toStrCanonical value

/-- `lib.rs yaml_parse`: null input gives null; non-UTF-8 input gives the
fixed error payload; otherwise the conversion result (or its formatted error
payload) is materialized with `CString::new(..).unwrap_or_default()`. -/
def yaml_parse (Y : YamlLib) (J : JsonLib) (input : Option (List Nat)) :
    Option (List Nat) :=
  match input with
  | none => none
  | some bytes =>
    if utf8Valid bytes then
      match parse_yaml_to_json Y J bytes with
      | .ok json => some (cStringNewOrDefault json)
      | .error e => some (cStringNewOrDefault (errorPayload e))
    else
      some invalidUtf8Payload

/-- `lib.rs yaml_encode`: mirror of `yaml_parse` for the JSON-to-YAML
direction; the C `block_style` integer selects block style when nonzero. -/
def yaml_encode (Y : YamlLib) (J : JsonLib) (input : Option (List Nat))
    (block_style : Int) : Option (List Nat) :=
  match input with
  | none => none
  | some bytes =>
    if utf8Valid bytes then
      match encode_json_to_yaml Y J bytes (block_style != 0) with
      | .ok yaml => some (cStringNewOrDefault yaml)
      | .error e => some (cStringNewOrDefault (errorPayload e))
    else
      some invalidUtf8Payload

/-- The mutable statics of `lib.rs`.  Crucially, `get_last_error` and
`set_last_error` each declare their own function-local
`static mut LAST_ERROR: Option<String> = None;` — in Rust these are two
distinct statics, so the model keeps two separate fields. -/
structure BridgeState where
  getSlot : Option (List Nat)
  setSlot : Option (List Nat)
deriving DecidableEq

/-- Both statics are initialized to `None` at process start. -/
def initialBridgeState : BridgeState :=
  { getSlot := none, setSlot := none }

/-- `lib.rs get_last_error`, as a function of the current state, whether the
buffer pointer is null, and the capacity.  The result is the returned count
together with the bytes written into the caller's buffer starting at offset
0 (`none` when nothing is written).  Reads only the static declared inside
`get_last_error` itself, and never writes any static. -/
def get_last_error (st : BridgeState) (bufferNull : Bool) (size : Nat) :
    Nat × Option (List Nat) :=
  if bufferNull || size == 0 then (0, none)
  else
    match st.getSlot with
    | some error =>
      let bytes_to_copy := min error.length (size - 1)
      (bytes_to_copy, some (error.take bytes_to_copy ++ [0]))
    | none => (0, some [0])

/-- `lib.rs set_last_error`: null clears the static declared inside
`set_last_error`; otherwise `c_str.to_str().ok().map(String::from)` stores
the text when it decodes as UTF-8 and clears the slot when it does not. -/
def set_last_error (error : Option (List Nat)) (st : BridgeState) :
    BridgeState :=
  match error with
  | none => { st with setSlot := none }
  | some bytes =>
    { st with setSlot := if utf8Valid bytes then some bytes else none }

/-- State-passing form of `yaml_parse`: the source function never mentions
either `LAST_ERROR` static, so every branch passes the state through
unchanged. -/
def yaml_parse_st (Y : YamlLib) (J : JsonLib) (input : Option (List Nat))
    (st : BridgeState) : Option (List Nat) × BridgeState :=
  match input with
  | none => (none, st)
  | some bytes =>
    if utf8Valid bytes then
      match parse_yaml_to_json Y J bytes with
      | .ok json => (some (cStringNewOrDefault json), st)
      | .error e => (some (cStringNewOrDefault (errorPayload e)), st)
    else
      (some invalidUtf8Payload, st)

/-- State-passing form of `yaml_encode`; like `yaml_parse`, the source never
touches either static. -/
def yaml_encode_st (Y : YamlLib) (J : JsonLib) (input : Option (List Nat))
    (block_style : Int) (st : BridgeState) :
    Option (List Nat) × BridgeState :=
  match input with
  | none => (none, st)
  | some bytes =>
    if utf8Valid bytes then
      match encode_json_to_yaml Y J bytes (block_style != 0) with
      | .ok yaml => (some (cStringNewOrDefault yaml), st)
      | .error e => (some (cStringNewOrDefault (errorPayload e)), st)
    else
      (some invalidUtf8Payload, st)

/-- The static `VERSION` byte string built by `yaml_bridge_version` via
`concat!(name, " ", version, " (", authors, ")")`, as a function of the
Cargo package metadata (whose concrete values live outside `src/`). -/
def versionBytes (name ver authors : List Nat) : List Nat :=
  name ++ strBytes " " ++ ver ++ strBytes " (" ++ authors ++ strBytes ")"

/-- The safety precondition of `CStr::from_bytes_with_nul_unchecked`, which
`yaml_bridge_version` invokes on `VERSION.as_bytes()`: the slice must be
nonempty and end with a NUL byte (and the claim under audit asserts exactly
this NUL-termination of the handed-out static bytes). -/
def nulTerminated (bytes : List Nat) : Prop :=
  bytes ≠ [] ∧ bytes.getLast? = some 0

/-- Concrete structured value used to exercise the round-trip pipeline. -/
def rtVal : JsonValue :=
  .obj [(strBytes "k",
    .arr [.num 1 0, .str (strBytes "s"), .null, .bool true, .num 25 (-1)])]

/-- Concrete JSON library on which the deserializer inverts the serializer
at `rtVal`, for instantiating the abstract-library theorems. -/
def rtJson : JsonLib :=
  { fromStr := fun _ => .ok rtVal
    toStr := fun _ => .ok (strBytes "J") }

/-- Concrete YAML library matching `rtJson`, with distinct block and
canonical renderings of `rtVal`. -/
def rtYaml : YamlLib :=
  { fromStr := fun _ => .ok rtVal
    toStrBlock := fun _ => .ok (strBytes "B")
    toStrCanonical := fun _ => .ok (strBytes "F") }

/-- Concrete top-level field list with two keys in a fixed order. -/
def koFields : List (List Nat × JsonValue) :=
  [(strBytes "b", .num 1 0), (strBytes "a", .num 2 0)]

/-- Concrete JSON library for the key-order instantiation. -/
def koJson : JsonLib :=
  { fromStr := fun _ => .ok (.obj koFields)
    toStr := fun _ => .ok (strBytes "J8") }

/-- Concrete YAML library for the key-order instantiation. -/
def koYaml : YamlLib :=
  { fromStr := fun _ => .ok (.obj koFields)
    toStrBlock := fun _ => .ok (strBytes "B8")
    toStrCanonical := fun _ => .ok (strBytes "F8") }

/-- A library error message containing embedded double quotes. -/
def failMsg : List Nat := strBytes "bad \"tok\" here"

/-- Concrete YAML library that rejects every input with `failMsg`. -/
def failYaml : YamlLib :=
  { fromStr := fun _ => .error failMsg
    toStrBlock := fun _ => .error failMsg
    toStrCanonical := fun _ => .error failMsg }

/-- Concrete JSON library that rejects every input with `failMsg`. -/
def failJson : JsonLib :=
  { fromStr := fun _ => .error failMsg
    toStr := fun _ => .error failMsg }

/-- Concrete YAML library whose outputs and error messages contain an
interior NUL byte. -/
def nulYaml : YamlLib :=
  { fromStr := fun s => if s = [97] then .ok .null else .error [0]
    toStrBlock := fun _ => .ok [0]
    toStrCanonical := fun _ => .ok [0] }

/-- Concrete JSON library whose outputs and error messages contain an
interior NUL byte. -/
def nulJson : JsonLib :=
  { fromStr := fun s => if s = [97] then .ok .null else .error [0]
    toStr := fun _ => .ok [0] }

/-- The contract the spec states for `read_last_error`, written from the
claim's words: null buffer or zero capacity gives 0 with no write; with an
error of length `n` stored, min(n, capacity-1) content bytes are copied, one
terminating NUL follows them, and the content-byte count is returned; with
no error stored an empty string is written and 0 returned. -/
def read_last_error_spec (stored : Option (List Nat)) (bufferNull : Bool)
    (capacity : Nat) : Nat × Option (List Nat) :=
  if bufferNull then (0, none)
  else if capacity = 0 then (0, none)
  else
    match stored with
    | some err =>
      let copied := min err.length (capacity - 1)
      (copied, some (err.take copied ++ [0]))
    | none => (0, some [0])

/-- C1: the claim says writing a message with `set_last_error` and then
reading with `get_last_error` (capacity ≥ len+1) copies exactly the message
and returns its length.  The code violates this: the two functions each
declare their own function-local `static mut LAST_ERROR`, which in Rust are
two distinct statics, so the written message is never visible to the
reader.  Writing the one-byte message "x" and reading with capacity 2
yields count 0 and an empty string, not count 1 and "x". -/
theorem c1_set_then_get_loses_message :
    get_last_error (set_last_error (some [120]) initialBridgeState) false 2 =
      (0, some [0]) ∧
    get_last_error (set_last_error (some [120]) initialBridgeState) false 2 ≠
      ([120].length, some ([120] ++ [0])) := by
  constructor
  · rfl
  · decide

/-- C2: the claim says the version pointer refers to a null-terminated byte
sequence within the static allocation.  The code violates this for every
possible Cargo package name / version / authors value: `VERSION` is built by
`concat!` ending in the literal `")"`, so its final byte is 0x29 and not
NUL, yet it is handed to `CStr::from_bytes_with_nul_unchecked`, whose
safety precondition demands a trailing NUL. -/
theorem c2_version_not_nul_terminated (name ver authors : List Nat) :
    (versionBytes name ver authors).getLast? = some 41 ∧
    ¬ nulTerminated (versionBytes name ver authors) := by
  have h : versionBytes name ver authors =
      (name ++ strBytes " " ++ ver ++ strBytes " (" ++ authors) ++ [41] := rfl
  constructor
  · rw [h]
    exact List.getLast?_concat _
  · intro hnt
    have hlast := hnt.2
    rw [h, List.getLast?_concat] at hlast
    simp at hlast

/-- C3: for non-null valid-UTF-8 input on which the underlying parse fails,
each conversion entry point returns a non-null owning string whose content
is the JSON object built around the message with embedded double quotes
backslash-escaped, and never returns null on such input (the payload-shape
equalities are stated under the side condition that the payload has no
interior NUL byte, under which `CString::new` succeeds; real library
messages are NUL-free displayable text). -/
theorem c3_parse_failure_error_payload (Y : YamlLib) (J : JsonLib)
    (pBytes eBytes e1 e2 : List Nat) (bs : Int)
    (hpu : utf8Valid pBytes = true)
    (hp : parse_yaml_to_json Y J pBytes = .error e1)
    (heu : utf8Valid eBytes = true)
    (he : encode_json_to_yaml Y J eBytes (bs != 0) = .error e2) :
    yaml_parse Y J (some pBytes) ≠ none ∧
    ((errorPayload e1).contains 0 = false →
      yaml_parse Y J (some pBytes) =
        some (strBytes "\x7b\"error\":\"" ++ escapeQuotes e1 ++ strBytes "\"\x7d")) ∧
    yaml_encode Y J (some eBytes) bs ≠ none ∧
    ((errorPayload e2).contains 0 = false →
      yaml_encode Y J (some eBytes) bs =
        some (strBytes "\x7b\"error\":\"" ++ escapeQuotes e2 ++ strBytes "\"\x7d")) := by
  refine ⟨?_, ?_, ?_, ?_⟩
  · simp [yaml_parse, hpu, hp]
  · intro hz
    have hcs : cStringNewOrDefault (errorPayload e1) = errorPayload e1 := by
      unfold cStringNewOrDefault
      rw [hz]
      simp
    have hval : yaml_parse Y J (some pBytes) =
        some (cStringNewOrDefault (errorPayload e1)) := by
      simp [yaml_parse, hpu, hp]
    rw [hval, hcs]
    rfl
  · simp [yaml_encode, heu, he]
  · intro hz
    have hcs : cStringNewOrDefault (errorPayload e2) = errorPayload e2 := by
      unfold cStringNewOrDefault
      rw [hz]
      simp
    have hval : yaml_encode Y J (some eBytes) bs =
        some (cStringNewOrDefault (errorPayload e2)) := by
      simp [yaml_encode, heu, he]
    rw [hval, hcs]
    rfl

/-- Witness for C3 at a concrete failing library and concrete inputs. -/
theorem c3_parse_failure_error_payload_witness :
    yaml_parse failYaml failJson (some [107]) =
      some (strBytes "\x7b\"error\":\"" ++ escapeQuotes failMsg ++ strBytes "\"\x7d") ∧
    yaml_encode failYaml failJson (some [106]) 1 =
      some (strBytes "\x7b\"error\":\"" ++ escapeQuotes failMsg ++ strBytes "\"\x7d") := by
  have h := c3_parse_failure_error_payload failYaml failJson [107] [106]
    failMsg failMsg 1 (by decide) rfl (by decide) rfl
  exact ⟨h.2.1 (by decide), h.2.2.2 (by decide)⟩

/-- C4: for every non-null input byte sequence that is not valid UTF-8,
both entry points return an owning string with exactly the content
`\x7b"error":"Invalid UTF-8 in input"\x7d`, and the result is independent of the
underlying YAML/JSON libraries — they are never invoked on that input. -/
theorem c4_invalid_utf8_guard (Y Y' : YamlLib) (J J' : JsonLib)
    (bytes : List Nat) (bs : Int) (h : utf8Valid bytes = false) :
    yaml_parse Y J (some bytes) =
      some (strBytes "\x7b\"error\":\"Invalid UTF-8 in input\"\x7d") ∧
    yaml_encode Y J (some bytes) bs =
      some (strBytes "\x7b\"error\":\"Invalid UTF-8 in input\"\x7d") ∧
    yaml_parse Y J (some bytes) = yaml_parse Y' J' (some bytes) ∧
    yaml_encode Y J (some bytes) bs = yaml_encode Y' J' (some bytes) bs := by
  refine ⟨?_, ?_, ?_, ?_⟩ <;> simp [yaml_parse, yaml_encode, h, invalidUtf8Payload]

/-- Witness for C4 at the concrete non-UTF-8 input `[0xFF]` and two
different concrete library pairs. -/
theorem c4_invalid_utf8_guard_witness :
    yaml_parse rtYaml rtJson (some [255]) =
      some (strBytes "\x7b\"error\":\"Invalid UTF-8 in input\"\x7d") ∧
    yaml_encode rtYaml rtJson (some [255]) 0 =
      some (strBytes "\x7b\"error\":\"Invalid UTF-8 in input\"\x7d") ∧
    yaml_parse rtYaml rtJson (some [255]) = yaml_parse failYaml failJson (some [255]) ∧
    yaml_encode rtYaml rtJson (some [255]) 0 = yaml_encode failYaml failJson (some [255]) 0 :=
  c4_invalid_utf8_guard rtYaml failYaml rtJson failJson [255] 0 (by decide)

/-- C5: a null input pointer makes either conversion entry point return
null with no allocation performed (in this model an allocation is exactly a
`some` result) and the last-error state unchanged. -/
theorem c5_null_input_identity (Y : YamlLib) (J : JsonLib) (bs : Int)
    (st : BridgeState) :
    yaml_parse_st Y J none st = (none, st) ∧
    yaml_encode_st Y J none bs st = (none, st) :=
  ⟨rfl, rfl⟩

/-- C6: `get_last_error` implements exactly the contract the claim states
(null buffer or zero capacity: 0 and no write; stored error of length n:
min(n, capacity-1) content bytes then one NUL, returning the content count,
truncating silently; no stored error: empty string and 0), and whenever it
writes, the written bytes fit within the capacity and end with the NUL
terminator. -/
theorem c6_get_last_error_matches_contract (st : BridgeState)
    (bufferNull : Bool) (size : Nat) :
    get_last_error st bufferNull size =
      read_last_error_spec st.getSlot bufferNull size ∧
    Option.elim (get_last_error st bufferNull size).2 True
      (fun l => l.length ≤ size ∧ l.getLast? = some 0) := by
  have heq : get_last_error st bufferNull size =
      read_last_error_spec st.getSlot bufferNull size := by
    unfold get_last_error read_last_error_spec
    cases bufferNull with
    | true => simp
    | false =>
      by_cases hs : size = 0
      · simp [hs]
      · simp [hs]
  refine ⟨heq, ?_⟩
  rw [heq]
  unfold read_last_error_spec
  cases bufferNull with
  | true => simp
  | false =>
    by_cases hs : size = 0
    · simp [hs]
    · cases st.getSlot with
      | none =>
        simp [hs]
        omega
      | some err =>
        simp only [Bool.false_eq_true, if_false, if_neg hs, Option.elim]
        refine ⟨?_, List.getLast?_concat _⟩
        simp only [List.length_append, List.length_take, List.length_cons,
          List.length_nil]
        omega

/-- C7: for a structured value on which the trusted libraries'
deserializers invert their serializers (the spec's information-preservation
invariant for the external collaborators), composing `encode_json_to_yaml`
with `parse_yaml_to_json` — in either order and for both values of the
block-style flag — yields text that parses back to a value equal to the
original. -/
theorem c7_round_trip (Y : YamlLib) (J : JsonLib) (v : JsonValue)
    (jt yb yf ytext : List Nat)
    (hJs : J.toStr v = .ok jt) (hJp : J.fromStr jt = .ok v)
    (hYb : Y.toStrBlock v = .ok yb) (hYf : Y.toStrCanonical v = .ok yf)
    (hYpb : Y.fromStr yb = .ok v) (hYpf : Y.fromStr yf = .ok v)
    (hYt : Y.fromStr ytext = .ok v) :
    (encode_json_to_yaml Y J jt true = .ok yb ∧
      parse_yaml_to_json Y J yb = .ok jt ∧ J.fromStr jt = .ok v) ∧
    (encode_json_to_yaml Y J jt false = .ok yf ∧
      parse_yaml_to_json Y J yf = .ok jt ∧ J.fromStr jt = .ok v) ∧
    (parse_yaml_to_json Y J ytext = .ok jt ∧
      encode_json_to_yaml Y J jt true = .ok yb ∧ Y.fromStr yb = .ok v ∧
      encode_json_to_yaml Y J jt false = .ok yf ∧ Y.fromStr yf = .ok v) := by
  refine ⟨⟨?_, ?_, hJp⟩, ⟨?_, ?_, hJp⟩, ?_, ?_, hYpb, ?_, hYpf⟩ <;>
    simp [encode_json_to_yaml, parse_yaml_to_json, hJs, hJp, hYb, hYf,
      hYpb, hYpf, hYt]

/-- Witness for C7 at the concrete value `rtVal` and the concrete library
pair `rtYaml` / `rtJson`. -/
theorem c7_round_trip_witness :
    (encode_json_to_yaml rtYaml rtJson (strBytes "J") true = .ok (strBytes "B") ∧
      parse_yaml_to_json rtYaml rtJson (strBytes "B") = .ok (strBytes "J") ∧
      rtJson.fromStr (strBytes "J") = .ok rtVal) ∧
    (encode_json_to_yaml rtYaml rtJson (strBytes "J") false = .ok (strBytes "F") ∧
      parse_yaml_to_json rtYaml rtJson (strBytes "F") = .ok (strBytes "J") ∧
      rtJson.fromStr (strBytes "J") = .ok rtVal) ∧
    (parse_yaml_to_json rtYaml rtJson (strBytes "Y") = .ok (strBytes "J") ∧
      encode_json_to_yaml rtYaml rtJson (strBytes "J") true = .ok (strBytes "B") ∧
      rtYaml.fromStr (strBytes "B") = .ok rtVal ∧
      encode_json_to_yaml rtYaml rtJson (strBytes "J") false = .ok (strBytes "F") ∧
      rtYaml.fromStr (strBytes "F") = .ok rtVal) :=
  c7_round_trip rtYaml rtJson rtVal (strBytes "J") (strBytes "B")
    (strBytes "F") (strBytes "Y") rfl rfl rfl rfl rfl rfl rfl

/-- C8: for a JSON object whose ordered field list round-trips through the
trusted libraries (the spec's order-preserving-mapping invariant), the YAML
produced by the JSON-to-YAML direction parses back to a mapping listing the
keys in the original order, and the JSON re-derived from that YAML parses
back to a mapping with the same key order. -/
theorem c8_key_order (Y : YamlLib) (J : JsonLib)
    (fields : List (List Nat × JsonValue)) (jt yb : List Nat)
    (hJs : J.toStr (.obj fields) = .ok jt)
    (hJp : J.fromStr jt = .ok (.obj fields))
    (hYb : Y.toStrBlock (.obj fields) = .ok yb)
    (hYpb : Y.fromStr yb = .ok (.obj fields)) :
    encode_json_to_yaml Y J jt true = .ok yb ∧
    (Y.fromStr yb = .ok (.obj fields) ∧
      topKeys (.obj fields) = fields.map Prod.fst) ∧
    parse_yaml_to_json Y J yb = .ok jt ∧
    (J.fromStr jt = .ok (.obj fields) ∧
      topKeys (.obj fields) = fields.map Prod.fst) := by
  refine ⟨?_, ⟨hYpb, rfl⟩, ?_, hJp, rfl⟩
  · simp [encode_json_to_yaml, hJp, hYb]
  · simp [parse_yaml_to_json, hYpb, hJs]

/-- Witness for C8 at the concrete two-key field list `koFields` and the
concrete library pair `koYaml` / `koJson`. -/
theorem c8_key_order_witness :
    encode_json_to_yaml koYaml koJson (strBytes "J8") true = .ok (strBytes "B8") ∧
    (koYaml.fromStr (strBytes "B8") = .ok (.obj koFields) ∧
      topKeys (.obj koFields) = koFields.map Prod.fst) ∧
    parse_yaml_to_json koYaml koJson (strBytes "B8") = .ok (strBytes "J8") ∧
    (koJson.fromStr (strBytes "J8") = .ok (.obj koFields) ∧
      topKeys (.obj koFields) = koFields.map Prod.fst) :=
  c8_key_order koYaml koJson koFields (strBytes "J8") (strBytes "B8")
    rfl rfl rfl rfl

/-- C9: neither conversion entry point ever writes either last-error
static, on any input and any outcome: the state-passing forms return the
state unchanged (reflecting that the source of `yaml_parse` and
`yaml_encode` never names any `LAST_ERROR` static). -/
theorem c9_conversions_preserve_error_slots (Y : YamlLib) (J : JsonLib)
    (input : Option (List Nat)) (bs : Int) (st : BridgeState) :
    (yaml_parse_st Y J input st).2 = st ∧
    (yaml_encode_st Y J input bs st).2 = st := by
  constructor
  · cases input with
    | none => rfl
    | some bytes =>
      by_cases hv : utf8Valid bytes
      · cases hpp : parse_yaml_to_json Y J bytes <;>
          simp [yaml_parse_st, hv, hpp]
      · simp [yaml_parse_st, hv]
  · cases input with
    | none => rfl
    | some bytes =>
      by_cases hv : utf8Valid bytes
      · cases hpp : encode_json_to_yaml Y J bytes (bs != 0) <;>
          simp [yaml_encode_st, hv, hpp]
      · simp [yaml_encode_st, hv]

/-- C10: on non-null valid-UTF-8 input whose conversion result text —
successful output or formatted error payload — contains an interior NUL
byte, `CString::new` fails and `unwrap_or_default` substitutes the empty
C string, so both entry points return a non-null pointer to an empty
string rather than failing or returning null. -/
theorem c10_interior_nul_yields_empty_string (Y : YamlLib) (J : JsonLib)
    (pOk pErr eOk eErr j1 e1 j2 e2 : List Nat) (bs : Int)
    (hpu : utf8Valid pOk = true)
    (hp : parse_yaml_to_json Y J pOk = .ok j1)
    (hz1 : j1.contains 0 = true)
    (hqu : utf8Valid pErr = true)
    (hq : parse_yaml_to_json Y J pErr = .error e1)
    (hz2 : (errorPayload e1).contains 0 = true)
    (heu : utf8Valid eOk = true)
    (he : encode_json_to_yaml Y J eOk (bs != 0) = .ok j2)
    (hz3 : j2.contains 0 = true)
    (hfu : utf8Valid eErr = true)
    (hf : encode_json_to_yaml Y J eErr (bs != 0) = .error e2)
    (hz4 : (errorPayload e2).contains 0 = true) :
    yaml_parse Y J (some pOk) = some [] ∧
    yaml_parse Y J (some pErr) = some [] ∧
    yaml_encode Y J (some eOk) bs = some [] ∧
    yaml_encode Y J (some eErr) bs = some [] := by
  have h1 : cStringNewOrDefault j1 = [] := by
    unfold cStringNewOrDefault
    rw [hz1]
    rfl
  have h2 : cStringNewOrDefault (errorPayload e1) = [] := by
    unfold cStringNewOrDefault
    rw [hz2]
    rfl
  have h3 : cStringNewOrDefault j2 = [] := by
    unfold cStringNewOrDefault
    rw [hz3]
    rfl
  have h4 : cStringNewOrDefault (errorPayload e2) = [] := by
    unfold cStringNewOrDefault
    rw [hz4]
    rfl
  refine ⟨?_, ?_, ?_, ?_⟩
  · simp [yaml_parse, hpu, hp, h1]
  · simp [yaml_parse, hqu, hq, h2]
  · simp [yaml_encode, heu, he, h3]
  · simp [yaml_encode, hfu, hf, h4]

/-- Witness for C10 at the concrete NUL-producing library pair `nulYaml` /
`nulJson` and the concrete inputs "a" and "b". -/
theorem c10_interior_nul_yields_empty_string_witness :
    yaml_parse nulYaml nulJson (some [97]) = some [] ∧
    yaml_parse nulYaml nulJson (some [98]) = some [] ∧
    yaml_encode nulYaml nulJson (some [97]) 1 = some [] ∧
    yaml_encode nulYaml nulJson (some [98]) 1 = some [] :=
  c10_interior_nul_yields_empty_string nulYaml nulJson [97] [98] [97] [98]
    [0] [0] [0] [0] 1 (by decide) rfl (by decide) (by decide) rfl (by decide)
    (by decide) rfl (by decide) (by decide) rfl (by decide)
